import Mathlib

/-!
Verification of the LwM2M client (python-lwm2m-client, directory 01-Registration).

The development shallow-embeds the parts of the program the properties talk
about: the TLV codec of tlv_encoder.py, the registration path and SenML payload
builders of models.py and client.py, and the update loop and CoAP GET handlers
of lwm2m_client.py.  Byte strings are lists of naturals below 256; Python ints
are Lean Int; a Python function that can raise (struct.error) returns Option.
Python strings that only carry opaque payloads are represented by their UTF-8
byte sequences, and an IEEE-754 single-precision float by the 32-bit pattern
that struct.pack with format char f would produce for it.
-/

/-! ## TLV codec (tlv_encoder.py) -/

/-- Type byte constant for an object instance element (bits 7-6 = 00). -/
def TLVType_OBJECT_INSTANCE : Nat := 0x00

/-- Type byte constant for a resource-with-value element (bits 7-6 = 11). -/
def TLVType_RESOURCE_VALUE : Nat := 0xC0

/-- Type byte constant for a resource-instance element (bits 7-6 = 01). -/
def TLVType_RESOURCE_INSTANCE : Nat := 0x40

/-- Type byte constant for a multiple-resource element (bits 7-6 = 10). -/
def TLVType_MULTIPLE_RESOURCE : Nat := 0x80

/-- Big-endian 4-byte encoding of a 32-bit unsigned value, as struct.pack with
format char I produces for an in-range argument. -/
def u32be (u : Nat) : List Nat :=
  [u / 16777216 % 256, u / 65536 % 256, u / 256 % 256, u % 256]

/-- Model of struct.pack with format char i: 4-byte big-endian twos-complement
for an int32, struct.error (none) outside the int32 range. -/
def pack_int32 (i : Int) : Option (List Nat) :=
  if -2147483648 ≤ i ∧ i < 2147483648 then some (u32be (i % 4294967296).toNat)
  else none

/-- A Python value handed to the encoder (str, int, float or bytes).  Strings
are represented by their UTF-8 byte sequence, floats by the 32-bit bit pattern
of their single-precision representation. -/
inductive TLVValue where
  | str (s : List Nat)
  | int (i : Int)
  | float (bits : Nat)
  | bytes (b : List Nat)
  deriving DecidableEq

/-- Value-to-bytes conversion from encode_resource_tlv: bytes pass through,
strings are their UTF-8 bytes, ints go through struct.pack format i (which
fails outside int32), floats through struct.pack format f (always 4 bytes). -/
def tlv_value_bytes : TLVValue → Option (List Nat)
  | .bytes b => some b
  | .str s => some s
  | .int i => pack_int32 i
  | .float bits => some (u32be bits)

/-- Model of tlv_encoder._encode_tlv_header.  The identifier_16bit flag is the
constant False in the source, so only the 8-bit identifier branches remain;
struct.pack with format char B raises for an identifier above 255 (none here),
and in the 24-bit branch struct.pack format I raises for a length at or above
2 to the 32.  The source takes the low three bytes of the 4-byte packing of the
length there, hence the drop 1. -/
def _encode_tlv_header (tlv_type identifier length : Nat) : Option (List Nat) :=
  if length ≤ 7 then
    if identifier ≤ 255 then some [tlv_type ||| length, identifier] else none
  else if length ≤ 255 then
    if identifier ≤ 255 then some [tlv_type ||| (1 <<< 3), identifier, length] else none
  else if length ≤ 65535 then
    if identifier ≤ 255 then
      some [tlv_type ||| (2 <<< 3), identifier, length / 256, length % 256]
    else none
  else
    if length < 4294967296 ∧ identifier ≤ 255 then
      some ([tlv_type ||| (3 <<< 3), identifier] ++ (u32be length).drop 1)
    else none

/-- Model of tlv_encoder.encode_resource_tlv: convert the value to bytes, emit
the RESOURCE_VALUE header for their length, and append the value bytes. -/
def encode_resource_tlv (resource_id : Nat) (value : TLVValue) : Option (List Nat) := do
  let value_bytes ← tlv_value_bytes value
  let header ← _encode_tlv_header TLVType_RESOURCE_VALUE resource_id value_bytes.length
  pure (header ++ value_bytes)

/-- Model of tlv_encoder.encode_instance_tlv: the children are encoded in the
order given by sorted(resources.items()).  Python sorts the pairs, and since
the keys of a dict are unique that is ordering by resource id; the dict itself
is modelled by a key-value list whose key component has no duplicates. -/
def encode_instance_tlv (instance_id : Nat) (resources : List (Nat × TLVValue)) :
    Option (List Nat) := do
  let chunks ← (resources.mergeSort fun a b => a.1 ≤ b.1).mapM
    fun p => encode_resource_tlv p.1 p.2
  let body := chunks.flatten
  let header ← _encode_tlv_header TLVType_OBJECT_INSTANCE instance_id body.length
  pure (header ++ body)

/-! ## Header fields read back from emitted bytes -/

/-- Length-field width selector, bits 4-3 of the header byte. -/
def header_selector (b0 : Nat) : Nat := b0 / 8 % 4

/-- Big-endian value of a byte list. -/
def beNat (l : List Nat) : Nat := l.foldl (fun a b => a * 256 + b) 0

/-- Length a header declares: the inline bits 2-0 when the selector is 0,
otherwise the big-endian value of the following length bytes. -/
def declared_length (b0 : Nat) (lengthBytes : List Nat) : Nat :=
  if header_selector b0 = 0 then b0 % 8 else beNat lengthBytes

/-- The minimal length-field width selector that fits a value length, the table
of section 4.3 of the spec: 0 for 0-7, 1 for 8-255, 2 for 256-65535, 3 above. -/
def min_selector (length : Nat) : Nat :=
  if length ≤ 7 then 0 else if length ≤ 255 then 1 else if length ≤ 65535 then 2 else 3

theorem lor192_inline (n : Nat) (h : n ≤ 7) : 192 ||| n = 192 + n := by
  interval_cases n <;> decide

/-- Branch-by-branch description of the header the encoder emits for the
resource-with-value type byte, for every identifier and length the packing
accepts with a 3-byte-or-narrower length field. -/
theorem encode_header_192 (identifier length : Nat) (hid : identifier ≤ 255)
    (hlen : length ≤ 16777215) :
    (length ≤ 7 ∧
      _encode_tlv_header 192 identifier length = some [192 + length, identifier]) ∨
    (8 ≤ length ∧ length ≤ 255 ∧
      _encode_tlv_header 192 identifier length = some [200, identifier, length]) ∨
    (256 ≤ length ∧ length ≤ 65535 ∧
      _encode_tlv_header 192 identifier length =
        some [208, identifier, length / 256, length % 256]) ∨
    (65536 ≤ length ∧
      _encode_tlv_header 192 identifier length =
        some [216, identifier, length / 65536 % 256, length / 256 % 256, length % 256]) := by
  unfold _encode_tlv_header
  by_cases h7 : length ≤ 7
  · exact Or.inl ⟨h7, by rw [lor192_inline length h7]; simp [h7, hid]⟩
  · by_cases h255 : length ≤ 255
    · exact Or.inr (Or.inl ⟨by omega, h255, by simp [h7, h255, hid]⟩)
    · by_cases h65535 : length ≤ 65535
      · exact Or.inr (Or.inr (Or.inl ⟨by omega, h65535, by simp [h7, h255, h65535, hid]⟩))
      · refine Or.inr (Or.inr (Or.inr ⟨by omega, ?_⟩))
        have : length < 4294967296 := by omega
        simp [h7, h255, h65535, hid, this, u32be]

/-! ## Decoder, modelled from the spec (section 4.3) -/

/-- Modelled from the spec: the decoding procedure of section 4.3 is absent from
the observed implementation (the spec itself flags it as such), so it is built
here from the words of the spec.  Read byte0; fail when bit 5 indicates an
unsupported 16-bit identifier; determine the length from the selector in
bits 4-3; fail when the declared length exceeds the remaining buffer; return
the element kind, the identifier, the raw value bytes and the unconsumed rest
of the buffer. -/
def decode_element (buf : List Nat) : Option (Nat × Nat × List Nat × List Nat) :=
  match buf with
  | b0 :: identifier :: rest =>
    if b0 / 32 % 2 = 1 then none
    else
      let kind := b0 / 64
      if header_selector b0 = 0 then
        let len := b0 % 8
        if len ≤ rest.length then some (kind, identifier, rest.take len, rest.drop len)
        else none
      else if header_selector b0 = 1 then
        match rest with
        | l0 :: tail =>
          if l0 ≤ tail.length then some (kind, identifier, tail.take l0, tail.drop l0)
          else none
        | [] => none
      else if header_selector b0 = 2 then
        match rest with
        | l0 :: l1 :: tail =>
          let len := l0 * 256 + l1
          if len ≤ tail.length then some (kind, identifier, tail.take len, tail.drop len)
          else none
        | _ => none
      else
        match rest with
        | l0 :: l1 :: l2 :: tail =>
          let len := l0 * 65536 + l1 * 256 + l2
          if len ≤ tail.length then some (kind, identifier, tail.take len, tail.drop len)
          else none
        | _ => none
  | _ => none

/-- Caller-supplied datatype context for interpreting raw value bytes; the
codec itself carries no datatype metadata. -/
inductive TLVDatatype where
  | str
  | int32
  | float32
  | opaqueData
  deriving DecidableEq

/-- Modelled from the spec: interpretation of the raw value bytes in the
datatype context supplied by the caller.  Strings and opaque values are the
raw bytes; an int32 is read back from 4 bytes of big-endian twos-complement;
a float is read back as its 32-bit pattern from 4 bytes. -/
def interpret_value : TLVDatatype → List Nat → Option TLVValue
  | .str, b => some (.str b)
  | .opaqueData, b => some (.bytes b)
  | .int32, [a, b, c, d] =>
    let u := a * 16777216 + b * 65536 + c * 256 + d
    some (.int (if u < 2147483648 then (u : Int) else (u : Int) - 4294967296))
  | .int32, _ => none
  | .float32, [a, b, c, d] => some (.float (a * 16777216 + b * 65536 + c * 256 + d))
  | .float32, _ => none

/-- Modelled from the spec: full decode of one leaf element — parse the element
and interpret its value region in the caller-supplied datatype context. -/
def decode_resource (ctx : TLVDatatype) (buf : List Nat) :
    Option (Nat × Nat × TLVValue × List Nat) := do
  let (kind, identifier, valueBytes, rest) ← decode_element buf
  let v ← interpret_value ctx valueBytes
  pure (kind, identifier, v, rest)

/-- The datatype context that matches a value variant. -/
def ctx_of : TLVValue → TLVDatatype
  | .str _ => .str
  | .int _ => .int32
  | .float _ => .float32
  | .bytes _ => .opaqueData

/-- Parsing a resource-with-value header followed by exactly the declared
number of value bytes succeeds and returns those bytes whole. -/
theorem decode_encode_leaf (identifier : Nat) (v : List Nat) (hid : identifier ≤ 255)
    (hlen : v.length ≤ 16777215) :
    ∃ hdr, _encode_tlv_header 192 identifier v.length = some hdr ∧
      decode_element (hdr ++ v) = some (3, identifier, v, []) := by
  rcases encode_header_192 identifier v.length hid hlen with
    ⟨h7, heq⟩ | ⟨h8, h255, heq⟩ | ⟨h256, h65535, heq⟩ | ⟨h65536, heq⟩
  · refine ⟨_, heq, ?_⟩
    have hsel : header_selector (192 + v.length) = 0 := by
      unfold header_selector; omega
    have hbit : (192 + v.length) / 32 % 2 = 1 → False := by omega
    have hkind : (192 + v.length) / 64 = 3 := by omega
    have hmod : (192 + v.length) % 8 = v.length := by omega
    simp [decode_element, hsel, hmod, hkind, if_neg hbit]
  · refine ⟨_, heq, ?_⟩
    simp [decode_element, header_selector]
  · refine ⟨_, heq, ?_⟩
    have hrec : v.length / 256 * 256 + v.length % 256 = v.length := by omega
    simp [decode_element, header_selector, hrec]
  · refine ⟨_, heq, ?_⟩
    have hrec : v.length / 65536 % 256 * 65536 + v.length / 256 % 256 * 256 +
        v.length % 256 = v.length := by omega
    simp [decode_element, header_selector, hrec]

/-! ## C1: minimal length-field width -/

theorem lor_kinds_inline (t n : Nat)
    (ht : t = 0 ∨ t = 64 ∨ t = 128 ∨ t = 192) (h : n ≤ 7) : t ||| n = t + n := by
  rcases ht with rfl | rfl | rfl | rfl <;> interval_cases n <;> decide

/-- C1: for every element kind, identifier and value-region length up to
16777215, the emitted header is the header byte, then the identifier byte, then
length bytes whose count and the selector in bits 4-3 of the header byte are
the minimal width that fits the length (0-7 inline, 8-255 one byte, 256-65535
two bytes, larger three bytes), the header declares exactly the value-region
length, and a resource element consists of this header followed by the value
bytes. -/
theorem tlv_header_minimal_width (t identifier length : Nat) (v : List Nat)
    (ht : t = TLVType_OBJECT_INSTANCE ∨ t = TLVType_RESOURCE_INSTANCE ∨
      t = TLVType_MULTIPLE_RESOURCE ∨ t = TLVType_RESOURCE_VALUE)
    (hid : identifier ≤ 255) (hlen : length ≤ 16777215) (hv : v.length = length) :
    (∃ b0 lengthBytes, _encode_tlv_header t identifier length =
        some (b0 :: identifier :: lengthBytes) ∧
      header_selector b0 = min_selector length ∧
      lengthBytes.length = min_selector length ∧
      declared_length b0 lengthBytes = length ∧
      b0 / 64 = t / 64) ∧
    (∃ hdr, _encode_tlv_header TLVType_RESOURCE_VALUE identifier length = some hdr ∧
      encode_resource_tlv identifier (.bytes v) = some (hdr ++ v)) := by
  have ht4 : t = 0 ∨ t = 64 ∨ t = 128 ∨ t = 192 := by
    simpa [TLVType_OBJECT_INSTANCE, TLVType_RESOURCE_INSTANCE,
      TLVType_MULTIPLE_RESOURCE, TLVType_RESOURCE_VALUE] using ht
  constructor
  · have h8 : t ||| 8 = t + 8 := by
      rcases ht4 with rfl | rfl | rfl | rfl <;> decide
    have h16 : t ||| 16 = t + 16 := by
      rcases ht4 with rfl | rfl | rfl | rfl <;> decide
    have h24 : t ||| 24 = t + 24 := by
      rcases ht4 with rfl | rfl | rfl | rfl <;> decide
    unfold _encode_tlv_header
    by_cases h7 : length ≤ 7
    · refine ⟨t + length, [], ?_, ?_, ?_, ?_, ?_⟩
      · simp [h7, hid, lor_kinds_inline t length ht4 h7]
      · unfold header_selector min_selector; simp [h7]; omega
      · simp [min_selector, h7]
      · unfold declared_length header_selector
        rw [if_pos (by omega)]; omega
      · omega
    · by_cases h255 : length ≤ 255
      · refine ⟨t + 8, [length], ?_, ?_, ?_, ?_, ?_⟩
        · simp [h7, h255, hid, h8]
        · unfold header_selector min_selector; simp [h7, h255]; omega
        · simp [min_selector, h7, h255]
        · unfold declared_length header_selector
          rw [if_neg (by omega)]; simp [beNat]
        · omega
      · by_cases h65535 : length ≤ 65535
        · refine ⟨t + 16, [length / 256, length % 256], ?_, ?_, ?_, ?_, ?_⟩
          · simp [h7, h255, h65535, hid, h16]
          · unfold header_selector min_selector; simp [h7, h255, h65535]; omega
          · simp [min_selector, h7, h255, h65535]
          · unfold declared_length header_selector
            rw [if_neg (by omega)]; simp [beNat]; omega
          · omega
        · have h32 : length < 4294967296 := by omega
          refine ⟨t + 24,
            [length / 65536 % 256, length / 256 % 256, length % 256], ?_, ?_, ?_, ?_, ?_⟩
          · simp [h7, h255, h65535, hid, h24, h32, u32be]
          · unfold header_selector min_selector; simp [h7, h255, h65535]; omega
          · simp [min_selector, h7, h255, h65535]
          · unfold declared_length header_selector
            rw [if_neg (by omega)]; simp [beNat]; omega
          · omega
  · obtain ⟨hdr, hhdr, _⟩ := decode_encode_leaf identifier v hid (hv ▸ hlen)
    rw [hv] at hhdr
    refine ⟨hdr, ?_, ?_⟩
    · simpa [TLVType_RESOURCE_VALUE] using hhdr
    · simp [encode_resource_tlv, tlv_value_bytes, TLVType_RESOURCE_VALUE, hv, hhdr]

/-- Witness: C1 applied at the concrete boundary length 65536, where the
selector becomes 3 and three length bytes follow the identifier byte. -/
theorem tlv_header_minimal_width_witness :
    ((192 = TLVType_OBJECT_INSTANCE ∨ 192 = TLVType_RESOURCE_INSTANCE ∨
        192 = TLVType_MULTIPLE_RESOURCE ∨ 192 = TLVType_RESOURCE_VALUE) ∧
      1 ≤ 255 ∧ 65536 ≤ 16777215 ∧ (List.replicate 65536 0).length = 65536) ∧
    ((∃ b0 lengthBytes, _encode_tlv_header 192 1 65536 =
        some (b0 :: 1 :: lengthBytes) ∧
      header_selector b0 = min_selector 65536 ∧
      lengthBytes.length = min_selector 65536 ∧
      declared_length b0 lengthBytes = 65536 ∧
      b0 / 64 = 192 / 64) ∧
    (∃ hdr, _encode_tlv_header TLVType_RESOURCE_VALUE 1 65536 = some hdr ∧
      encode_resource_tlv 1 (.bytes (List.replicate 65536 0)) = some (hdr ++ List.replicate 65536 0))) :=
  ⟨⟨by simp [TLVType_RESOURCE_VALUE], by decide, by decide, List.length_replicate 65536 0⟩,
    tlv_header_minimal_width 192 1 65536 (List.replicate 65536 0)
      (by simp [TLVType_RESOURCE_VALUE]) (by decide) (by decide)
      (List.length_replicate 65536 0)⟩

/-! ## C3: the over-large length is silently truncated, not rejected -/

theorem encode_bytes_pow24 (v : List Nat) (hv : v.length = 16777216) :
    encode_resource_tlv 1 (.bytes v) = some (216 :: 1 :: 0 :: 0 :: 0 :: v) := by
  have hlor : (192 : Nat) ||| 24 = 216 := by decide
  simp [encode_resource_tlv, tlv_value_bytes, TLVType_RESOURCE_VALUE,
    _encode_tlv_header, hv, u32be, hlor]

/-- C3: a 16777216-byte value needs a length field wider than 3 bytes, yet the
encoder returns a byte string instead of failing: the emitted header carries
the three low bytes of the length (all zero), so it declares length 0 for a
16777216-byte value region, and a decoder reading that header consumes no
value bytes at all. -/
theorem tlv_value_too_large_not_raised :
    encode_resource_tlv 1 (.bytes (List.replicate 16777216 0)) =
        some (216 :: 1 :: 0 :: 0 :: 0 :: List.replicate 16777216 0) ∧
    declared_length 216 [0, 0, 0] = 0 ∧
    (List.replicate 16777216 (0 : Nat)).length = 16777216 ∧
    decode_element (216 :: 1 :: 0 :: 0 :: 0 :: List.replicate 16777216 0) =
        some (3, 1, [], List.replicate 16777216 0) := by
  have hdec : ∀ v : List Nat, decode_element (216 :: 1 :: 0 :: 0 :: 0 :: v) =
      some (3, 1, [], v) := by
    intro v
    simp [decode_element, header_selector]
  exact ⟨encode_bytes_pow24 _ (List.length_replicate 16777216 0), by decide,
    List.length_replicate 16777216 0, hdec _⟩

/-! ## C4: round-trip -/

/-- Well-formedness of a leaf value: the int32 range for ints, a 32-bit pattern
for floats, and a byte length the 3-byte length field can express for strings
and opaque bytes. -/
def tlv_wf : TLVValue → Prop
  | .str s => s.length ≤ 16777215
  | .int i => -2147483648 ≤ i ∧ i < 2147483648
  | .float bits => bits < 4294967296
  | .bytes b => b.length ≤ 16777215

/-- C4: decoding recovers every well-formed leaf value exactly — for strings,
int32 values including both range boundaries, floats and opaque bytes, the
spec-modelled decoder applied to the encoder output returns the identifier and
the original value, with the whole buffer consumed. -/
theorem tlv_decode_encode_roundtrip (identifier : Nat) (v : TLVValue)
    (hid : identifier ≤ 255) (hv : tlv_wf v) :
    ∃ out, encode_resource_tlv identifier v = some out ∧
      decode_resource (ctx_of v) out = some (3, identifier, v, []) := by
  cases v with
  | bytes b =>
    obtain ⟨hdr, hhdr, hdec⟩ := decode_encode_leaf identifier b hid hv
    refine ⟨hdr ++ b, ?_, ?_⟩
    · simp [encode_resource_tlv, tlv_value_bytes, TLVType_RESOURCE_VALUE, hhdr]
    · simp [decode_resource, ctx_of, hdec, interpret_value]
  | str s =>
    obtain ⟨hdr, hhdr, hdec⟩ := decode_encode_leaf identifier s hid hv
    refine ⟨hdr ++ s, ?_, ?_⟩
    · simp [encode_resource_tlv, tlv_value_bytes, TLVType_RESOURCE_VALUE, hhdr]
    · simp [decode_resource, ctx_of, hdec, interpret_value]
  | float bits =>
    have hb : bits < 4294967296 := hv
    obtain ⟨hdr, hhdr, hdec⟩ := decode_encode_leaf identifier (u32be bits) hid
      (by simp [u32be])
    refine ⟨hdr ++ u32be bits, ?_, ?_⟩
    · simp [encode_resource_tlv, tlv_value_bytes, TLVType_RESOURCE_VALUE, hhdr]
    · simp only [u32be] at hdec
      simp [decode_resource, ctx_of, u32be, interpret_value, hdec]
      omega
  | int i =>
    have hr : -2147483648 ≤ i ∧ i < 2147483648 := hv
    have hpack : pack_int32 i = some (u32be (i % 4294967296).toNat) := by
      simp [pack_int32, hr.1, hr.2]
    obtain ⟨hdr, hhdr, hdec⟩ := decode_encode_leaf identifier
      (u32be (i % 4294967296).toNat) hid (by simp [u32be])
    refine ⟨hdr ++ u32be (i % 4294967296).toNat, ?_, ?_⟩
    · simp [encode_resource_tlv, tlv_value_bytes, TLVType_RESOURCE_VALUE, hpack, hhdr]
    · have hu : ((i % 4294967296).toNat : Int) = i % 4294967296 := by omega
      have hult : (i % 4294967296).toNat < 4294967296 := by omega
      set u := (i % 4294967296).toNat with hu_def
      simp only [u32be] at hdec
      simp [decode_resource, ctx_of, u32be, interpret_value, hdec]
      split <;> omega

/-- Witness: the round-trip theorem applied at both int32 range boundaries. -/
theorem tlv_decode_encode_roundtrip_witness :
    (1 ≤ 255 ∧ tlv_wf (.int (-2147483648)) ∧ tlv_wf (.int 2147483647)) ∧
    (∃ out, encode_resource_tlv 1 (.int (-2147483648)) = some out ∧
      decode_resource (ctx_of (.int (-2147483648))) out =
        some (3, 1, .int (-2147483648), [])) ∧
    (∃ out, encode_resource_tlv 1 (.int 2147483647) = some out ∧
      decode_resource (ctx_of (.int 2147483647)) out =
        some (3, 1, .int 2147483647, [])) :=
  ⟨⟨by decide, by constructor <;> norm_num, by constructor <;> norm_num⟩,
    tlv_decode_encode_roundtrip 1 (.int (-2147483648)) (by decide)
      (by constructor <;> norm_num),
    tlv_decode_encode_roundtrip 1 (.int 2147483647) (by decide)
      (by constructor <;> norm_num)⟩

/-! ## C2: canonical child ordering -/

/-- Key-sorted order of a key-value list with duplicate-free keys is strict on
the keys. -/
theorem mergeSort_key_strict (l : List (Nat × TLVValue))
    (hnd : (l.map Prod.fst).Nodup) :
    (l.mergeSort fun a b => a.1 ≤ b.1).Pairwise fun a b => a.1 < b.1 := by
  have hperm := List.mergeSort_perm l (fun a b => a.1 ≤ b.1)
  have hsorted := @List.sorted_mergeSort (Nat × TLVValue)
    (fun a b => decide (a.1 ≤ b.1))
    (by intro a b c hab hbc; simp only [decide_eq_true_eq] at *; omega)
    (by intro a b; simp only [Bool.or_eq_true, decide_eq_true_eq]; omega) l
  have hnd2 : ((l.mergeSort fun a b => a.1 ≤ b.1).map Prod.fst).Nodup :=
    ((hperm.map Prod.fst).nodup_iff).mpr hnd
  have hne : (l.mergeSort fun a b => a.1 ≤ b.1).Pairwise fun a b => a.1 ≠ b.1 :=
    List.pairwise_map.mp hnd2
  have := hsorted.and hne
  exact this.imp (by intro a b hab; simp only [decide_eq_true_eq] at hab; omega)

/-- Two key-value lists that are permutations of each other with
duplicate-free keys sort to the same list. -/
theorem mergeSort_key_eq (l₁ l₂ : List (Nat × TLVValue)) (hperm : l₁.Perm l₂)
    (hnd : (l₁.map Prod.fst).Nodup) :
    l₁.mergeSort (fun a b => a.1 ≤ b.1) = l₂.mergeSort (fun a b => a.1 ≤ b.1) := by
  haveI : IsAntisymm (Nat × TLVValue) (fun a b => a.1 < b.1) :=
    ⟨fun a b hab hba => absurd hba (by omega)⟩
  have hnd2 : (l₂.map Prod.fst).Nodup := ((hperm.map Prod.fst).nodup_iff).mp hnd
  have hp : (l₁.mergeSort fun a b => a.1 ≤ b.1).Perm
      (l₂.mergeSort fun a b => a.1 ≤ b.1) :=
    ((List.mergeSort_perm l₁ _).trans hperm).trans (List.mergeSort_perm l₂ _).symm
  exact List.eq_of_perm_of_sorted hp (mergeSort_key_strict l₁ hnd)
    (mergeSort_key_strict l₂ hnd2)

/-- C2: encoding an object instance does not depend on the insertion order of
the resource map — any two key-value lists with the same contents (permutations
with duplicate-free resource ids) produce identical bytes — and the emitted
value-region is the concatenation of the fully encoded children taken in
strictly ascending resource-id order. -/
theorem encode_instance_canonical (instance_id : Nat)
    (l₁ l₂ : List (Nat × TLVValue)) (hperm : l₁.Perm l₂)
    (hnd : (l₁.map Prod.fst).Nodup) :
    encode_instance_tlv instance_id l₁ = encode_instance_tlv instance_id l₂ ∧
    ∃ s, l₁.Perm s ∧ (s.Pairwise fun a b => a.1 < b.1) ∧
      encode_instance_tlv instance_id l₁ = (do
        let chunks ← s.mapM fun p => encode_resource_tlv p.1 p.2
        let body := chunks.flatten
        let header ← _encode_tlv_header TLVType_OBJECT_INSTANCE instance_id body.length
        pure (header ++ body)) := by
  refine ⟨?_, l₁.mergeSort (fun a b => a.1 ≤ b.1),
    (List.mergeSort_perm l₁ _).symm, mergeSort_key_strict l₁ hnd, rfl⟩
  unfold encode_instance_tlv
  rw [mergeSort_key_eq l₁ l₂ hperm hnd]

/-- Witness: C2 applied to a two-resource map given in the two possible
insertion orders. -/
theorem encode_instance_canonical_witness :
    (([((1 : Nat), TLVValue.bytes [170]), (0, TLVValue.bytes [187])].Perm
        [(0, TLVValue.bytes [187]), (1, TLVValue.bytes [170])]) ∧
      (([((1 : Nat), TLVValue.bytes [170]), (0, TLVValue.bytes [187])].map
        Prod.fst).Nodup)) ∧
    encode_instance_tlv 5 [((1 : Nat), TLVValue.bytes [170]), (0, TLVValue.bytes [187])] =
      encode_instance_tlv 5 [(0, TLVValue.bytes [187]), (1, TLVValue.bytes [170])] :=
  ⟨⟨by decide, by decide⟩,
    (encode_instance_canonical 5
      [((1 : Nat), TLVValue.bytes [170]), (0, TLVValue.bytes [187])]
      [(0, TLVValue.bytes [187]), (1, TLVValue.bytes [170])]
      (by decide) (by decide)).1⟩

/-! ## C10: int32 leaf encoding -/

/-- Counterexample to C10 as stated: at resource id 5700 (the sensor-value id
the client itself uses) and the in-range value 0 the encoder raises — the
identifier byte packing fails above 255 — instead of producing 4 value
bytes. -/
theorem encode_int32_id5700_fails : encode_resource_tlv 5700 (.int 0) = none := by
  decide

/-- C10 (amended to identifiers 0-255): under the int32 precondition the
encoder is total and emits the inline-length-4 header followed by exactly 4
value bytes holding the big-endian twos-complement of the value, and for any
integer outside the int32 range it fails instead of returning bytes. -/
theorem encode_int32_exact (identifier : Nat) (i : Int) (hid : identifier ≤ 255) :
    (∀ _ : -2147483648 ≤ i ∧ i < 2147483648,
      ∃ b, encode_resource_tlv identifier (.int i) = some ([196, identifier] ++ b) ∧
        b.length = 4 ∧ (beNat b : Int) = i % 4294967296) ∧
    (¬(-2147483648 ≤ i ∧ i < 2147483648) →
      encode_resource_tlv identifier (.int i) = none) := by
  constructor
  · intro h
    have hlor : (192 : Nat) ||| 4 = 196 := by decide
    refine ⟨u32be (i % 4294967296).toNat, ?_, by simp [u32be], ?_⟩
    · simp [encode_resource_tlv, tlv_value_bytes, pack_int32, h.1, h.2,
        _encode_tlv_header, TLVType_RESOURCE_VALUE, u32be, hid, hlor]
    · have hu : ((i % 4294967296).toNat : Int) = i % 4294967296 := by omega
      simp [beNat, u32be]
      omega
  · intro h
    simp [encode_resource_tlv, tlv_value_bytes, pack_int32, h]

/-- Witness: the amended C10 applied at an in-range and an out-of-range
value. -/
theorem encode_int32_exact_witness :
    (1 ≤ 255 ∧ (-2147483648 ≤ (-7 : Int) ∧ (-7 : Int) < 2147483648) ∧
      ¬(-2147483648 ≤ (2147483648 : Int) ∧ (2147483648 : Int) < 2147483648)) ∧
    (∃ b, encode_resource_tlv 1 (.int (-7)) = some ([196, 1] ++ b) ∧
      b.length = 4 ∧ (beNat b : Int) = (-7 : Int) % 4294967296) ∧
    encode_resource_tlv 1 (.int 2147483648) = none :=
  ⟨⟨by decide, by constructor <;> norm_num, by norm_num⟩,
    (encode_int32_exact 1 (-7) (by decide)).1 (by constructor <;> norm_num),
    (encode_int32_exact 1 2147483648 (by decide)).2 (by norm_num)⟩

/-! ## Registration parameters and paths (models.py, client.py) -/

/-- Model of models.RegistrationParameters: the dataclass fields that the path
builder and the update loop read (the object-links field is carried in the
source but never read by them). -/
structure RegistrationParameters where
  device_name : String
  lifetime_seconds : Int := 60
  lwm2m_version : String := "1.2"
  binding : String := "U"
  enable_queue_binding : Bool := true
  deriving DecidableEq

/-- Model of RegistrationParameters.register_path from models.py. -/
def register_path (p : RegistrationParameters) : String :=
  "/rd?ep=" ++ p.device_name ++ "&lt=" ++ toString p.lifetime_seconds ++
    "&lwm2m=" ++ p.lwm2m_version ++ "&b=" ++ p.binding ++ "&Q"

/-- Model of make_register_path from client.py, whose parameters are already
strings (the lifetime default there is the string 60). -/
def make_register_path (device_name lifetime_seconds lwm2m_version binding : String) :
    String :=
  "/rd?ep=" ++ device_name ++ "&lt=" ++ lifetime_seconds ++ "&lwm2m=" ++
    lwm2m_version ++ "&b=" ++ binding ++ "&Q"

/-- C7: the register path is exactly the query string built from device name,
lifetime, version and binding with the queue flag appended, the documented
literal comes out for the documented inputs, and the result is identical for
both values of enable_queue_binding — the queue flag is unconditional. -/
theorem register_path_literal (d v b : String) (l : Int) (q : Bool) :
    register_path ⟨d, l, v, b, q⟩ =
      "/rd?ep=" ++ d ++ "&lt=" ++ toString l ++ "&lwm2m=" ++ v ++ "&b=" ++ b ++ "&Q" ∧
    register_path ⟨d, l, v, b, q⟩ = register_path ⟨d, l, v, b, !q⟩ ∧
    register_path ⟨"dev1", 60, "1.2", "U", q⟩ = "/rd?ep=dev1&lt=60&lwm2m=1.2&b=U&Q" ∧
    make_register_path "dev1" "60" "1.2" "U" = "/rd?ep=dev1&lt=60&lwm2m=1.2&b=U&Q" :=
  ⟨rfl, rfl, by cases q <;> rfl, rfl⟩

/-! ## Update loop (lwm2m_client.py) -/

/-- An outbound CoAP request as the update loop builds it: method code, request
URI and payload (aiocoap Message with code POST and no payload). -/
structure UpdateMessage where
  code : String
  uri : String
  payload : String
  deriving DecidableEq

/-- Model of make_update_message: POST to the joined location path of the
current handle with the lifetime and binding query parameters and an empty
payload. -/
def make_update_message (server_addr : String) (device_location_parts : List String)
    (params : RegistrationParameters) : UpdateMessage :=
  ⟨"POST",
    server_addr ++ "/" ++ String.intercalate "/" device_location_parts ++
      "?lt=" ++ toString params.lifetime_seconds ++ "&b=" ++ params.binding,
    ""⟩

/-- The interval computed once at the top of send_update_loop:
max(10, lifetime_seconds // 2), with Python floor division. -/
def update_interval (params : RegistrationParameters) : Int :=
  max 10 (Int.fdiv params.lifetime_seconds 2)

/-- Model of the body of send_update_loop, run against a finite schedule of
responses from the environment: each iteration sleeps for the interval, sends
an UPDATE built from the unchanged location and parameters, awaits the next
response and — as in the source, which only prints the response code —
continues with state unchanged regardless of that response. -/
def send_update_loop_run (server : String) (device_location_parts : List String)
    (params : RegistrationParameters) (responses : List Nat) :
    List (Int × UpdateMessage) :=
  match responses with
  | [] => []
  | _resp :: rest =>
    (update_interval params, make_update_message server device_location_parts params) ::
      send_update_loop_run server device_location_parts params rest

/-- C6: every scheduled UPDATE of the loop happens after exactly
max(10, lifetime/2) seconds — the 10-second floor dominating whenever half the
lifetime is smaller — and is a POST to the location path of the current handle
carrying the lifetime and binding query parameters with an empty payload. -/
theorem update_loop_schedule (server : String) (parts : List String)
    (params : RegistrationParameters) (responses : List Nat)
    (e : Int × UpdateMessage)
    (he : e ∈ send_update_loop_run server parts params responses) :
    e.1 = max 10 (Int.fdiv params.lifetime_seconds 2) ∧
    (Int.fdiv params.lifetime_seconds 2 ≤ 10 → e.1 = 10) ∧
    e.2 = ⟨"POST",
      server ++ "/" ++ String.intercalate "/" parts ++ "?lt=" ++
        toString params.lifetime_seconds ++ "&b=" ++ params.binding, ""⟩ := by
  induction responses with
  | nil => simp [send_update_loop_run] at he
  | cons r rest ih =>
    rw [send_update_loop_run] at he
    rcases List.mem_cons.mp he with rfl | hmem
    · refine ⟨rfl, ?_, rfl⟩
      intro hle
      simp [update_interval]
      omega
    · exact ih hmem

/-- Witness: the schedule theorem applied to the first trace entry of a
concrete run with the default 60-second lifetime. -/
theorem update_loop_schedule_witness :
    ((update_interval ⟨"dev1", 60, "1.2", "U", true⟩,
        make_update_message "coap://server" ["rd", "dev1"] ⟨"dev1", 60, "1.2", "U", true⟩) ∈
      send_update_loop_run "coap://server" ["rd", "dev1"] ⟨"dev1", 60, "1.2", "U", true⟩ [69]) ∧
    (update_interval ⟨"dev1", 60, "1.2", "U", true⟩,
        make_update_message "coap://server" ["rd", "dev1"] ⟨"dev1", 60, "1.2", "U", true⟩).1 =
      max 10 (Int.fdiv (60 : Int) 2) :=
  ⟨by simp [send_update_loop_run],
    (update_loop_schedule "coap://server" ["rd", "dev1"] ⟨"dev1", 60, "1.2", "U", true⟩ [69]
      (update_interval ⟨"dev1", 60, "1.2", "U", true⟩,
        make_update_message "coap://server" ["rd", "dev1"] ⟨"dev1", 60, "1.2", "U", true⟩)
      (by simp [send_update_loop_run])).1⟩

/-- C5 is contradicted by the code: after a successful REGISTER, a run of the
update loop in which every UPDATE exchange fails (response code 4.04, here
132) keeps issuing UPDATEs against the same handle location — the loop reads
the response code only to print it, has no retry budget, never discards the
handle and never transitions to an unregistered state, so the third and fourth
UPDATEs are still sent to the location that the earlier failures showed to be
stale. -/
theorem update_loop_reuses_stale_handle :
    (send_update_loop_run "coap://server" ["rd", "dev1"] ⟨"dev1", 60, "1.2", "U", true⟩
        [132, 132, 132, 132]).map (fun e => e.2.uri) =
      ["coap://server/rd/dev1?lt=60&b=U", "coap://server/rd/dev1?lt=60&b=U",
        "coap://server/rd/dev1?lt=60&b=U", "coap://server/rd/dev1?lt=60&b=U"] := by
  rfl

/-! ## Content negotiation (lwm2m_client.py GET handlers) -/

/-- CoAP content-format number for text/plain. -/
def TEXT_PLAIN : Nat := 0

/-- CoAP content-format number for application/link-format. -/
def APPLICATION_LINK_FORMAT : Nat := 40

/-- CoAP content-format number for the LwM2M TLV format. -/
def LWM2M_TLV : Nat := 11542

/-- CoAP content-format number for the LwM2M JSON format. -/
def LWM2M_JSON : Nat := 11543

/-- Outcome of a render_get call: a 2.05 with a content format and payload, or
one of the error codes the handlers return (4.06, 4.04, and the 5.00 aiocoap
answers with when a handler raises). -/
inductive CoapResponse where
  | content (format : Nat) (payload : List Nat)
  | notAcceptable
  | notFound
  | serverError
  deriving DecidableEq

/-- Byte sequence of an ASCII string, used for the static payloads and values
of the data model (all of them are ASCII, so this is their UTF-8 form). -/
def asciiBytes (s : String) : List Nat := s.data.map Char.toNat

/-- Discovery payload for /3303/0 from temperature_model.py. -/
def DISCOVER_3303_0_PAYLOAD : List Nat := asciiBytes "</3303/0/5700>"

/-- Discovery payload for /3/0 from device_model.py. -/
def DISCOVER_3_0_PAYLOAD : List Nat :=
  asciiBytes "</3/0/0>,</3/0/1>,</3/0/2>,</3/0/3>,</3/0/6>,</3/0/7>,</3/0/8>,</3/0/9>,</3/0/10>,</3/0/11>,</3/0/13>,</3/0/14>,</3/0/15>,</3/0/16>"

/-- The static value table of device_model.DEVICE_STATIC_VALUES, in source
order. -/
def DEVICE_STATIC_VALUES : List (String × String) :=
  [("/3/0/0", "Malaria Corp."), ("/3/0/1", "Malaria-Client-01"),
   ("/3/0/2", "SN-00000001"), ("/3/0/3", "1.0.0"), ("/3/0/6", "0"),
   ("/3/0/7", "5000"), ("/3/0/8", "100"), ("/3/0/9", "100"),
   ("/3/0/10", "1024"), ("/3/0/11", "0"), ("/3/0/14", "+01:00"),
   ("/3/0/15", "Europe/Warsaw"), ("/3/0/16", "U")]

/-- Model of device_model.read_device_value: the dynamic current-time resource
first (the clock reading passed in as now), then the static table, then
none. -/
def read_device_value (now : Nat) (path : String) : Option (List Nat) :=
  if path = "/3/0/13" then some (asciiBytes (toString now))
  else (DEVICE_STATIC_VALUES.lookup path).map asciiBytes

/-- Model of device_model.get_all_device_resources: the static values keyed by
the resource id parsed from their path, then the dynamic current time appended
under id 13. -/
def get_all_device_resources (now : Nat) : List (Nat × TLVValue) :=
  (DEVICE_STATIC_VALUES.filterMap fun pv =>
    match pv.1.splitOn "/" with
    | ["", "3", "0", rid] => rid.toNat?.map fun n => (n, TLVValue.str (asciiBytes pv.2))
    | _ => none) ++ [(13, TLVValue.str (asciiBytes (toString now)))]

/-- Model of tlv_encoder.build_device_instance_tlv. -/
def build_device_instance_tlv (vals : List (Nat × TLVValue)) : Option (List Nat) :=
  encode_instance_tlv 0 vals

/-- Model of tlv_encoder.build_temperature_instance_tlv. -/
def build_temperature_instance_tlv (vals : List (Nat × TLVValue)) : Option (List Nat) :=
  encode_instance_tlv 0 vals

/-- Model of TemperatureValueResource.render_get for /3303/0/5700: the handler
defaults the accept option but never branches on it — it always answers 2.05
text/plain with the current reading. -/
def TemperatureValueResource_render_get (accept : Option Nat) (temp : List Nat) :
    CoapResponse :=
  let _accept := accept.getD TEXT_PLAIN
  .content TEXT_PLAIN temp

/-- Model of DeviceValueResource.render_get for /3/0/x: look the value up and
answer 2.05 text/plain, or 4.04 when the path has no value; the accept option
of the request is never read. -/
def DeviceValueResource_render_get (path : String) (_accept : Option Nat) (now : Nat) :
    CoapResponse :=
  match read_device_value now path with
  | some v => .content TEXT_PLAIN v
  | none => .notFound

/-- Model of TemperatureInstanceResource.render_get for /3303/0: link-format
for discovery, TLV (of the one float resource 5700, its reading passed in as a
bit pattern) when no format or the TLV format is requested, 4.06 otherwise.
A raising TLV encoder surfaces as a 5.00. -/
def TemperatureInstanceResource_render_get (accept : Option Nat) (tempBits : Nat) :
    CoapResponse :=
  if accept = some APPLICATION_LINK_FORMAT then
    .content APPLICATION_LINK_FORMAT DISCOVER_3303_0_PAYLOAD
  else if accept = none ∨ accept = some LWM2M_TLV then
    match build_temperature_instance_tlv [(5700, TLVValue.float tempBits)] with
    | some p => .content LWM2M_TLV p
    | none => .serverError
  else .notAcceptable

/-- Model of DeviceInstanceResource.render_get for /3/0: link-format for
discovery, TLV of the whole instance when no format or the TLV format is
requested, 4.06 otherwise. -/
def DeviceInstanceResource_render_get (accept : Option Nat) (now : Nat) :
    CoapResponse :=
  if accept = some APPLICATION_LINK_FORMAT then
    .content APPLICATION_LINK_FORMAT DISCOVER_3_0_PAYLOAD
  else if accept = none ∨ accept = some LWM2M_TLV then
    match build_device_instance_tlv (get_all_device_resources now) with
    | some p => .content LWM2M_TLV p
    | none => .serverError
  else .notAcceptable

/-- Counterexample to C8 as stated: a read of the leaf resource /3303/0/5700
with the explicitly requested unsupported LwM2M JSON format does not return
NotAcceptable — the handler ignores the requested format and serves the plain
text reading. -/
theorem leaf_read_ignores_accept :
    TemperatureValueResource_render_get (some LWM2M_JSON) (asciiBytes "21.50") =
        CoapResponse.content TEXT_PLAIN (asciiBytes "21.50") ∧
    TemperatureValueResource_render_get (some LWM2M_JSON) (asciiBytes "21.50") ≠
        CoapResponse.notAcceptable := by
  constructor
  · rfl
  · decide

/-- C8 (amended): only object- and instance-level reads fail NotAcceptable on
a requested format that is neither link-format nor TLV; single-leaf reads
ignore the requested format entirely and always serve the plain text scalar
form when the resource has a value (NotFound otherwise), even when an
unsupported format was explicitly requested. -/
theorem negotiate_not_acceptable (fmt : Nat) (temp : List Nat) (tempBits now : Nat)
    (path : String) (h40 : fmt ≠ APPLICATION_LINK_FORMAT) (htlv : fmt ≠ LWM2M_TLV) :
    TemperatureInstanceResource_render_get (some fmt) tempBits =
        CoapResponse.notAcceptable ∧
    DeviceInstanceResource_render_get (some fmt) now = CoapResponse.notAcceptable ∧
    TemperatureValueResource_render_get (some fmt) temp =
        CoapResponse.content TEXT_PLAIN temp ∧
    (∀ v, read_device_value now path = some v →
      DeviceValueResource_render_get path (some fmt) now =
        CoapResponse.content TEXT_PLAIN v) := by
  refine ⟨?_, ?_, rfl, ?_⟩
  · simp [TemperatureInstanceResource_render_get, h40, htlv]
  · simp [DeviceInstanceResource_render_get, h40, htlv]
  · intro v hv
    simp [DeviceValueResource_render_get, hv]

/-- Witness: the amended C8 applied with the LwM2M JSON format explicitly
requested at the device manufacturer leaf and the two instance paths. -/
theorem negotiate_not_acceptable_witness :
    ((11543 : Nat) ≠ APPLICATION_LINK_FORMAT ∧ (11543 : Nat) ≠ LWM2M_TLV ∧
      read_device_value 1700000000 "/3/0/0" = some (asciiBytes "Malaria Corp.")) ∧
    (TemperatureInstanceResource_render_get (some 11543) 0 =
        CoapResponse.notAcceptable ∧
      DeviceInstanceResource_render_get (some 11543) 1700000000 =
        CoapResponse.notAcceptable ∧
      TemperatureValueResource_render_get (some 11543) (asciiBytes "21.50") =
        CoapResponse.content TEXT_PLAIN (asciiBytes "21.50") ∧
      (∀ v, read_device_value 1700000000 "/3/0/0" = some v →
        DeviceValueResource_render_get "/3/0/0" (some 11543) 1700000000 =
          CoapResponse.content TEXT_PLAIN v)) :=
  ⟨⟨by decide, by decide, by decide⟩,
    negotiate_not_acceptable 11543 (asciiBytes "21.50") 0 1700000000 "/3/0/0"
      (by decide) (by decide)⟩

/-! ## SenML payload builder (models.py) -/

/-- A value accepted by SendPayload.add: int, float, str or bool.  Python
floats are idealized as rationals here; only the variant structure matters for
the serialized field set. -/
inductive SendValue where
  | int (i : Int)
  | float (x : Rat)
  | str (s : String)
  | bool (b : Bool)
  deriving DecidableEq

/-- Model of the SenmlRecord dataclass: name, optional numeric, string and
boolean values, optional timestamp. -/
structure SenmlRecord where
  n : String
  v : Option Rat
  vs : Option String
  vb : Option Bool
  t : Option Int
  deriving DecidableEq

/-- Model of SenmlRecord.from_lwm2m: normalize the path to a leading slash,
default the timestamp to the current time (passed in as now), then set exactly
one value field — vb for bool (tested first, as in the source, because a
Python bool is an int), v for int and float (as float(value)), vs
otherwise. -/
def SenmlRecord.from_lwm2m (path : String) (value : SendValue)
    (timestamp : Option Int) (now : Int) : SenmlRecord :=
  let path2 := if path.startsWith "/" then path else "/" ++ path
  let ts := timestamp.getD now
  match value with
  | .bool b => ⟨path2, none, none, some b, some ts⟩
  | .int i => ⟨path2, some (i : Rat), none, none, some ts⟩
  | .float x => ⟨path2, some x, none, none, some ts⟩
  | .str s => ⟨path2, none, some s, none, some ts⟩

/-- A JSON scalar as it appears in the serialized record. -/
inductive JsonValue where
  | num (x : Rat)
  | str (s : String)
  | bool (b : Bool)
  | int (i : Int)
  deriving DecidableEq

/-- Model of SenmlRecord.to_dict: a dict in insertion order with the n field
first, then t, v, vs, vb — each of the optional fields only when it is not
None. -/
def SenmlRecord.to_dict (r : SenmlRecord) : List (String × JsonValue) :=
  [("n", JsonValue.str r.n)] ++
    (match r.t with | some t => [("t", JsonValue.int t)] | none => []) ++
    (match r.v with | some v => [("v", JsonValue.num v)] | none => []) ++
    (match r.vs with | some vs => [("vs", JsonValue.str vs)] | none => []) ++
    (match r.vb with | some vb => [("vb", JsonValue.bool vb)] | none => [])

/-- The one value key a record serializes for each value variant. -/
def senml_value_key : SendValue → String
  | .bool _ => "vb"
  | .int _ => "v"
  | .float _ => "v"
  | .str _ => "vs"

/-- The serialized form of the value variant: float(value) for numbers, the
string for strings, the boolean for booleans. -/
def senml_value_json : SendValue → JsonValue
  | .bool b => .bool b
  | .int i => .num (i : Rat)
  | .float x => .num x
  | .str s => .str s

/-- C9: a serialized measurement record holds exactly the path field, the
timestamp field — defaulting to the current time when the timestamp was
omitted — and one single value field, chosen by the value variant (v for
numbers, vs for strings, vb for booleans); never two value fields in one
record. -/
theorem senml_record_fields (path : String) (value : SendValue)
    (timestamp : Option Int) (now : Int) :
    (SenmlRecord.from_lwm2m path value timestamp now).to_dict =
      [("n", JsonValue.str (if path.startsWith "/" then path else "/" ++ path)),
       ("t", JsonValue.int (timestamp.getD now)),
       (senml_value_key value, senml_value_json value)] ∧
    ((SenmlRecord.from_lwm2m path value timestamp now).to_dict.map Prod.fst).count "v" +
      ((SenmlRecord.from_lwm2m path value timestamp now).to_dict.map Prod.fst).count "vs" +
      ((SenmlRecord.from_lwm2m path value timestamp now).to_dict.map Prod.fst).count "vb"
      = 1 ∧
    (timestamp = none →
      (SenmlRecord.from_lwm2m path value timestamp now).to_dict.lookup "t" =
        some (JsonValue.int now)) := by
  cases value <;>
    refine ⟨rfl, by simp [SenmlRecord.from_lwm2m, SenmlRecord.to_dict,
      senml_value_key], ?_⟩ <;>
    · rintro rfl
      rfl
